import Mathlib

/-!
Verification development for the `gl_generator` subsystem of the gl-rs
repository: a registry data model plus a family of code-emission
strategies (Global, Struct, Debug-Struct, Static, Static-Struct) that
turn registry entries into callable bindings.

The definitions below are a shallow embedding of the Rust source under
`src/gl_generator/generators/`.  Pure generation logic becomes Lean
functions; the runtime behaviour of the *generated* code (symbol
resolution with fallback chains, function-pointer storage, panicking
stubs, debug tracing) is embedded as explicit state passing over a
caller-supplied probe function.  Machine pointers are modelled by the
inductive `Ptr` (a null pointer, a numbered native address, or the
address of the generated `missing_fn_panic` stub).

Helper functions of the repository that live outside the provided
generator sources (`gen_symbol_name`, `gen_struct_name`,
`gen_parameters`, `gen_types`, `gen_enum_item`) are modelled from the
specification and are marked as such in their doc comments.
-/

set_option autoImplicit false
set_option maxRecDepth 10000

namespace GlGen

/-! ## Registry data model (registry.rs, as described by the spec) -/

/-- A command parameter: name plus opaque type-descriptor string. -/
structure Param where
  ident : String
  ty : String
deriving DecidableEq, Repr


/-- A command prototype: command name plus return-type descriptor. -/
structure Proto where
  ident : String
  ty : String
deriving DecidableEq, Repr


/-- One callable native entry point of the registry. -/
structure Cmd where
  proto : Proto
  params : List Param
deriving DecidableEq, Repr


/-- One enumerated constant of the registry. -/
structure GlEnum where
  ident : String
  value : String
  ty : String
deriving DecidableEq, Repr


/-- The root entity: one API surface.  `aliases` maps a canonical
command name to its ordered fallback list; it is consulted only through
`aliasesGet` (the embedding of `registry.aliases.get`). -/
structure Registry where
  api : String
  enums : List GlEnum
  cmds : List Cmd
  aliases : List (String × List String)
deriving DecidableEq, Repr


/-- Embedding of `registry.aliases.get(&ident)`: first binding wins. -/
def aliasesGet (r : Registry) (ident : String) : Option (List String) :=
  (r.aliases.find? (fun p => p.1 = ident)).map Prod.snd


/-! ## Spec-modelled naming helpers (not under the provided sources) -/

/-- Modelled from the spec: `symbol_name(api, command_name)` is a
deterministic, API-specific prefix/decoration convention mapping a
logical command name to its native link/lookup symbol (spec section 4.2); the
missing repository code is `generators::gen_symbol_name`.  We model the
decoration as prefixing the api identifier. -/
def gen_symbol_name (api : String) (cmd : String) : String :=
  api ++ cmd


/-- Modelled from the spec: the api identifier also determines the
generated aggregate struct name (spec section 3); the missing repository code
is `generators::gen_struct_name`.  We model it as capitalisation. -/
def gen_struct_name (api : String) : String :=
  api.capitalize


/-- Modelled from the spec: `parameter_list(command, include_names,
include_types)` produces declaration-style (`name: type`), call-style
(`name` only) or type-only renderings of the same Parameter sequence by
toggling two independent flags (spec section 4.2); the missing repository code
is `generators::gen_parameters(cmd, with_idents, with_types)`. -/
def gen_parameters (cmd : Cmd) (with_idents : Bool) (with_types : Bool) :
    List String :=
  cmd.params.map (fun p =>
    if with_idents && with_types then p.ident ++ ": " ++ p.ty
    else if with_idents then p.ident
    else p.ty)


/-! ## Pointers, probe functions and `FnPtr` (common.rs) -/

/-- A raw `*const c_void` value in the generated code: null, a native
address, or the address of the generated `missing_fn_panic` stub. -/
inductive Ptr where
  | null : Ptr
  | addr : Nat → Ptr
  | missingFnPanic : Ptr
deriving DecidableEq, Repr


/-- Embedding of `ptr.is_null()`. -/
def Ptr.isNull : Ptr → Bool
  | .null => true
  | _ => false


/-- The function-pointer carrier record emitted by
`common::write_fnptr_struct_def`: a raw pointer plus a loaded flag. -/
structure FnPtr where
  f : Ptr
  is_loaded : Bool
deriving DecidableEq, Repr


/-- Embedding of `FnPtr::new` (common.rs): a null probe result binds the
slot to `missing_fn_panic` with `is_loaded == false`; a non-null result
is stored with `is_loaded == true`. -/
def FnPtr.new (ptr : Ptr) : FnPtr :=
  if ptr.isNull then
    { f := Ptr.missingFnPanic, is_loaded := false }
  else
    { f := ptr, is_loaded := true }


/-- A caller-supplied probe function.  Rust's `FnMut` closures may carry
mutable state, so the embedding passes a state `σ` explicitly. -/
def Loadfn (σ : Type) : Type := String → σ → Ptr × σ


/-! ## Symbol resolution (global_gen.rs `metaloadfn`,
struct_gen.rs / debug_struct_gen.rs `do_metaloadfn`) -/

/-- The fallback loop of `metaloadfn` / `do_metaloadfn`: probe each
fallback in declared order, stopping at the first non-null address;
when every probe is null the last assigned pointer (null) remains. -/
def probeLoop {σ : Type} (loadfn : Loadfn σ) :
    List String → σ → Ptr × σ
  | [], s => (Ptr.null, s)
  | sym :: rest, s =>
      let (ptr, s') := loadfn sym s
      if ptr.isNull then probeLoop loadfn rest s' else (ptr, s')


/-- Embedding of `metaloadfn` (global_gen.rs): probe the canonical
symbol; if that is null, run the fallback loop. -/
def metaloadfn {σ : Type} (loadfn : Loadfn σ) (symbol : String)
    (fallbacks : List String) (s : σ) : Ptr × σ :=
  let (ptr, s') := loadfn symbol s
  if ptr.isNull then probeLoop loadfn fallbacks s' else (ptr, s')


/-- Embedding of `do_metaloadfn` (struct_gen.rs and
debug_struct_gen.rs); its body is identical to `metaloadfn`. -/
def do_metaloadfn {σ : Type} (loadfn : Loadfn σ) (symbol : String)
    (symbols : List String) (s : σ) : Ptr × σ :=
  let (ptr, s') := loadfn symbol s
  if ptr.isNull then probeLoop loadfn symbols s' else (ptr, s')


/-! ## Derived characterisations of the resolution algorithm -/

/-- The first non-null address a pure probe `f` yields on `names`
(null when every probe is null). -/
def firstHit (f : String → Ptr) : List String → Ptr
  | [] => Ptr.null
  | n :: rest => if (f n).isNull then firstHit f rest else f n


/-- The names a pure probe `f` actually gets asked for, scanning
`names` in order and stopping after the first non-null answer. -/
def probeSeq (f : String → Ptr) : List String → List String
  | [] => []
  | n :: rest => if (f n).isNull then n :: probeSeq f rest else [n]


/-- A probe built from a pure address map `f` that logs, in order,
every symbol it is invoked on. -/
def loggingLoadfn (f : String → Ptr) : Loadfn (List String) :=
  fun sym log => (f sym, log ++ [sym])


/-! ## The Struct / Debug-Struct loader (struct_gen.rs `write_impl`)

`load_with` builds one aggregate value with a `FnPtr` field per command,
in registry order.  Each field is
`FnPtr::new(metaloadfn("<symbol>", &[<fallbacks>]))`, where the symbol
and every fallback name have been passed through `gen_symbol_name`. -/

/-- The decorated fallback list emitted for a command: the alias-map
entry mapped through `gen_symbol_name`, or empty when absent
(struct_gen.rs lines 74-81, global_gen.rs lines 132-141). -/
def decoratedFallbacks (r : Registry) (ident : String) : List String :=
  match aliasesGet r ident with
  | some fbs => fbs.map (fun name => gen_symbol_name r.api name)
  | none => []


/-- The aggregate value built by the generated `load_with`: one `FnPtr`
field per command, keyed by command name, in registry order (plus the
private `_priv: ()` sentinel, which carries no data). -/
structure GlStruct where
  fields : List (String × FnPtr)
deriving DecidableEq, Repr


/-- One field initialiser of the generated `load_with` body:
`{name}: FnPtr::new(metaloadfn("{symbol}", &[{fallbacks}]))`. -/
def loadField {σ : Type} (r : Registry) (loadfn : Loadfn σ) (cmd : Cmd)
    (s : σ) : (String × FnPtr) × σ :=
  let (ptr, s') := do_metaloadfn loadfn
    (gen_symbol_name r.api cmd.proto.ident)
    (decoratedFallbacks r cmd.proto.ident) s
  ((cmd.proto.ident, FnPtr.new ptr), s')


/-- The field initialisers of `load_with`, evaluated in registry
order, threading the `FnMut` probe state left to right. -/
def loadFields {σ : Type} (r : Registry) (loadfn : Loadfn σ) :
    List Cmd → σ → List (String × FnPtr) × σ
  | [], s => ([], s)
  | cmd :: rest, s =>
      let (fld, s') := loadField r loadfn cmd s
      let (flds, s'') := loadFields r loadfn rest s'
      (fld :: flds, s'')


/-- Embedding of the Struct / Debug-Struct `load_with` (struct_gen.rs
and debug_struct_gen.rs `write_impl`): probe every command's decorated
symbol plus decorated fallbacks and store the resulting `FnPtr`s. -/
def load_with {σ : Type} (r : Registry) (loadfn : Loadfn σ) (s : σ) :
    GlStruct × σ :=
  let (flds, s') := loadFields r loadfn r.cmds s
  (⟨flds⟩, s')


/-- Field access `self.{name}` on the generated aggregate.  Unknown
names yield an unloaded dummy; generated code only ever reads fields
that exist. -/
def GlStruct.get (g : GlStruct) (name : String) : FnPtr :=
  match g.fields.find? (fun p => p.1 = name) with
  | some p => p.2
  | none => { f := Ptr.null, is_loaded := false }


/-! ## The Global loader (global_gen.rs `write_ptrs`, `write_fn_mods`,
`write_load_fn`)

The Global strategy keeps one static `FnPtr` slot per command.  We model
the `storage` module as a list of named slots in registry order. -/

/-- The initial `storage` module emitted by `write_ptrs`: every slot
starts as `FnPtr { f: missing_fn_panic, is_loaded: false }`. -/
def globalStorageInit (r : Registry) : List (String × FnPtr) :=
  r.cmds.map (fun c =>
    (c.proto.ident, { f := Ptr.missingFnPanic, is_loaded := false }))


/-- The per-command `load_with` emitted by `write_fn_mods`:
`storage::{fnname} = FnPtr::new(metaloadfn(&mut loadfn, "{symbol}", {fallbacks}))`.
It returns the new slot value for the command. -/
def cmdLoadWith {σ : Type} (r : Registry) (loadfn : Loadfn σ) (c : Cmd)
    (s : σ) : FnPtr × σ :=
  let (ptr, s') := metaloadfn loadfn
    (gen_symbol_name r.api c.proto.ident)
    (decoratedFallbacks r c.proto.ident) s
  (FnPtr.new ptr, s')


/-- The module-level `load_with` emitted by `write_load_fn`: invoke the
per-command `load_with` of every command in registry order, updating
each storage slot. -/
def globalLoadWith {σ : Type} (r : Registry) (loadfn : Loadfn σ) :
    List Cmd → σ → List (String × FnPtr) × σ
  | [], s => ([], s)
  | c :: rest, s =>
      let (fp, s') := cmdLoadWith r loadfn c s
      let (slots, s'') := globalLoadWith r loadfn rest s'
      ((c.proto.ident, fp) :: slots, s'')


/-- Reading `storage::{name}` after a load pass. -/
def storageGet (slots : List (String × FnPtr)) (name : String) : FnPtr :=
  match slots.find? (fun p => p.1 = name) with
  | some p => p.2
  | none => { f := Ptr.missingFnPanic, is_loaded := false }


/-! ## Runtime invocation of a generated binding

Invoking a command transmutes the slot's raw pointer to a function
pointer and calls it.  A native environment gives each numbered address
a meaning; calling the `missing_fn_panic` address runs the stub emitted
by `common::write_panicking_fns`, which panics with the message
`"{api} function was not loaded"`. -/

/-- The result of a call in the generated code: a returned value or a
process-terminating panic with its message. -/
inductive CallResult (α : Type) where
  | ret : α → CallResult α
  | panicked : String → CallResult α
deriving DecidableEq, Repr


/-- The panic message of the `missing_fn_panic` stub emitted by
`common::write_panicking_fns`: `panic!("{api} function was not loaded")`. -/
def missingFnPanicMsg (api : String) : String :=
  api ++ " function was not loaded"


/-- Dispatch through a raw pointer: a native address computes with the
supplied environment; the `missing_fn_panic` address panics with the
message of `write_panicking_fns`; a null pointer never occurs in a slot
(modelled as a panic as well, distinguishable by its message). -/
def dispatch (api : String) (native : Nat → List Nat → Nat) (p : Ptr)
    (args : List Nat) : CallResult Nat :=
  match p with
  | .addr n => CallResult.ret (native n args)
  | .missingFnPanic => CallResult.panicked (missingFnPanicMsg api)
  | .null => CallResult.panicked "null function pointer"


/-- Embedding of the Global strategy's generated free function for a
command (global_gen.rs `write_fns`): transmute `storage::{name}.f` and
call it with the argument identifiers. -/
def invokeGlobal (r : Registry) (slots : List (String × FnPtr))
    (native : Nat → List Nat → Nat) (name : String) (args : List Nat) :
    CallResult Nat :=
  dispatch r.api native (storageGet slots name).f args


/-! ## Pure characterisation of a whole load pass -/

/-- The raw pointer a pure probe `f` resolves for command `c`:
the canonical decorated symbol if `f` answers it, otherwise the first
fallback hit. -/
def resolvePtr (r : Registry) (f : String → Ptr) (c : Cmd) : Ptr :=
  if (f (gen_symbol_name r.api c.proto.ident)).isNull then
    firstHit f (decoratedFallbacks r c.proto.ident)
  else f (gen_symbol_name r.api c.proto.ident)


/-- The `FnPtr` slot a pure probe `f` produces for command `c`. -/
def resolveCmd (r : Registry) (f : String → Ptr) (c : Cmd) : FnPtr :=
  FnPtr.new (resolvePtr r f c)


/-- The symbols probed while resolving command `c`: the canonical
decorated name first, then (only on a null answer) the decorated
fallbacks up to the first hit. -/
def cmdProbes (r : Registry) (f : String → Ptr) (c : Cmd) :
    List String :=
  gen_symbol_name r.api c.proto.ident ::
    (if (f (gen_symbol_name r.api c.proto.ident)).isNull then
      probeSeq f (decoratedFallbacks r c.proto.ident)
    else [])


/-! ## Substring testing (embedding of Rust's `str::contains`) -/

/-- Character-list version of substring containment. -/
def charsContain (needle : List Char) : List Char → Bool
  | [] => needle.isEmpty
  | c :: rest => needle.isPrefixOf (c :: rest) || charsContain needle rest


/-- Embedding of `hay.contains(needle)` on Rust strings. -/
def strContains (hay needle : String) : Bool :=
  charsContain needle.data hay.data


/-! ## Per-strategy signature fragments

Each strategy renders, for every command, a declared parameter list, a
typed parameter list for the call-site transmute, a call-argument list
and a return clause.  These are the exact `format!` arguments of the
respective `write_fns` / `write_impl` functions. -/

/-- `{params}` of the Global `write_fns`:
`gen_parameters(cmd, true, true).join(", ")`. -/
def globalParams (cmd : Cmd) : String :=
  String.intercalate ", " (gen_parameters cmd true true)


/-- `{typed_params}` of the Global `write_fns`:
`gen_parameters(cmd, false, true).join(", ")`. -/
def globalTypedParams (cmd : Cmd) : String :=
  String.intercalate ", " (gen_parameters cmd false true)


/-- `{idents}` of the Global `write_fns`:
`gen_parameters(cmd, true, false).join(", ")`. -/
def globalIdents (cmd : Cmd) : String :=
  String.intercalate ", " (gen_parameters cmd true false)


/-- `{params}` of the Struct `write_impl` method wrappers. -/
def structParams (cmd : Cmd) : String :=
  String.intercalate ", " (gen_parameters cmd true true)


/-- `{typed_params}` of the Struct `write_impl` transmute. -/
def structTypedParams (cmd : Cmd) : String :=
  String.intercalate ", " (gen_parameters cmd false true)


/-- `{idents}` of the Struct `write_impl` call site. -/
def structIdents (cmd : Cmd) : String :=
  String.intercalate ", " (gen_parameters cmd true false)


/-- `{params}` of the Debug-Struct `write_impl` method wrappers. -/
def debugParams (cmd : Cmd) : String :=
  String.intercalate ", " (gen_parameters cmd true true)


/-- `{typed_params}` of the Debug-Struct `write_impl` transmute. -/
def debugTypedParams (cmd : Cmd) : String :=
  String.intercalate ", " (gen_parameters cmd false true)


/-- `{idents}` of the Debug-Struct `write_impl` call site. -/
def debugIdents (cmd : Cmd) : String :=
  String.intercalate ", " (gen_parameters cmd true false)


/-- `{params}` of the Static `write_fns` extern declarations. -/
def staticParams (cmd : Cmd) : String :=
  String.intercalate ", " (gen_parameters cmd true true)


/-- `{typed_params}` of the Static-Struct `write_impl` method wrappers
(its template names `gen_parameters(cmd, true, true)` this way). -/
def staticStructParams (cmd : Cmd) : String :=
  String.intercalate ", " (gen_parameters cmd true true)


/-- `{idents}` of the Static-Struct `write_impl` call site. -/
def staticStructIdents (cmd : Cmd) : String :=
  String.intercalate ", " (gen_parameters cmd true false)


/-- The return clause the Global strategy emits after the parameter
list (global_gen.rs `write_fns`): the template is
`) -> {return_suffix}` with `return_suffix = cmd.proto.ty`, so the
clause is always present, even for the `"()"` sentinel. -/
def globalReturnClause (cmd : Cmd) : String :=
  "-> " ++ cmd.proto.ty


/-- The return clause the Struct strategy emits (struct_gen.rs
`write_impl`): empty exactly for the `"()"` sentinel. -/
def structReturnClause (cmd : Cmd) : String :=
  if cmd.proto.ty == "()" then "" else "-> " ++ cmd.proto.ty


/-- The return clause the Debug-Struct strategy emits
(debug_struct_gen.rs `write_impl`): empty exactly for `"()"`. -/
def debugReturnClause (cmd : Cmd) : String :=
  if cmd.proto.ty == "()" then "" else "-> " ++ cmd.proto.ty


/-- The return clause the Static strategy emits (static_gen.rs
`write_fns`): empty exactly for `"()"`. -/
def staticReturnClause (cmd : Cmd) : String :=
  if cmd.proto.ty == "()" then "" else "-> " ++ cmd.proto.ty


/-- The return clause the Static-Struct strategy emits in both its
method wrappers and its extern block (static_struct_gen.rs `write_impl`
and `write_fns`): the templates are `) -> {return_suffix}` with
`return_suffix = cmd.proto.ty`, so the clause is always present. -/
def staticStructReturnClause (cmd : Cmd) : String :=
  "-> " ++ cmd.proto.ty


/-! ## The Debug-Struct wrapper (debug_struct_gen.rs `write_impl`) -/

/-- The condition under which a post-call error check is appended to a
command's wrapper (debug_struct_gen.rs lines 114-119): the command is
not `GetError` itself and a `GetError` command exists in the registry. -/
def hasErrCheck (r : Registry) (cmd : Cmd) : Bool :=
  cmd.proto.ident != "GetError" &&
    r.cmds.any (fun c => c.proto.ident == "GetError")


/-- The `print_err` fragment of a command's wrapper: the post-call
`GetError` check, or the empty string (debug_struct_gen.rs lines
114-127). -/
def printErr (r : Registry) (cmd : Cmd) : String :=
  if hasErrCheck r cmd then
    ";\n match __gl_imports::mem::transmute::<_, extern \"system\" fn() -> u32>(self.GetError.f)() \x7b\n 0 => (),\n r => println!(\"[OpenGL] ^ GL error triggered: \x7b\x7d\", r)\n \x7d"
  else ""


/-- The `println!` statement built for a command's wrapper
(debug_struct_gen.rs lines 95-112): one `\x7b:?\x7d` placeholder per
argument, and a callback-typed argument (type containing
`GLDEBUGPROC`) is replaced by the literal `"<callback>"`. -/
def debugPrintlnStmt (cmd : Cmd) : String :=
  "println!(\"[OpenGL] " ++ cmd.proto.ident ++ "(" ++
    String.intercalate ", "
      ((gen_parameters cmd true false).map (fun _ => "\x7b:?\x7d")) ++
    ")\" " ++
    String.join
      (((gen_parameters cmd true false).zip
          (gen_parameters cmd false true)).map
        (fun p =>
          if strContains p.2 "GLDEBUGPROC" then ", \"<callback>\""
          else ", " ++ p.1)) ++
    ");"


/-- One observable runtime step of the generated debug wrapper. -/
inductive Event where
  | printed : String → Event
  | called : Ptr → List Nat → Event
deriving DecidableEq, Repr


/-- The runtime rendering of one argument in the trace line: the
`\x7b:?\x7d` debug formatting of its value, except that callback-typed
arguments were replaced by `"<callback>"` at generation time. -/
def formatArgVal (ty : String) (v : Nat) : String :=
  if strContains ty "GLDEBUGPROC" then "<callback>" else toString v


/-- The trace line the generated wrapper prints before the call:
call name and argument values, callbacks redacted. -/
def debugTraceLine (cmd : Cmd) (args : List Nat) : String :=
  "[OpenGL] " ++ cmd.proto.ident ++ "(" ++
    String.intercalate ", "
      ((cmd.params.zip args).map (fun p => formatArgVal p.1.ty p.2)) ++
    ")"


/-- Runtime semantics of the emitted debug wrapper for one command:
print the trace line, dispatch through the command's slot, then — only
when `hasErrCheck` held at generation time — call `GetError` and print
a second trace line on a non-zero result; finally return the underlying
call's value unchanged. -/
def debugWrapperRun (r : Registry) (g : GlStruct)
    (native : Nat → List Nat → Nat) (cmd : Cmd) (args : List Nat) :
    CallResult Nat × List Event :=
  let line := debugTraceLine cmd args
  let fp := (g.get cmd.proto.ident).f
  match dispatch r.api native fp args with
  | .panicked m => (.panicked m, [.printed line, .called fp args])
  | .ret v =>
      if hasErrCheck r cmd then
        let ge := (g.get "GetError").f
        match dispatch r.api native ge [] with
        | .panicked m =>
            (.panicked m, [.printed line, .called fp args, .called ge []])
        | .ret e =>
            (.ret v,
             [.printed line, .called fp args, .called ge []] ++
               (if e ≠ 0 then
                 [Event.printed ("[OpenGL] ^ GL error triggered: " ++
                   toString e)]
               else []))
      else (.ret v, [.printed line, .called fp args])


/-! ## Emitted text, helper by helper

Every `writeln!` of the source becomes one string chunk; a helper
becomes the list of chunks it writes, in order.  Braces, apostrophes
and backticks inside the emitted Rust text are written with character
escapes. -/

/-- The text of `common::write_header`: the `__gl_imports` module, with
`Send` pulled in for the thread-safe variants. -/
def write_header_text (send : Bool) : String :=
  if send then
    "\n mod __gl_imports \x7b\n pub use std::marker::Send;\n pub use std::mem;\n pub use std::os::raw;\n \x7d\n\n"
  else
    "\n mod __gl_imports \x7b\n pub use std::mem;\n pub use std::os::raw;\n \x7d\n\n"


/-- Modelled from the spec: `generators::gen_types` (invoked by
`common::write_type_aliases`, not under the provided sources) emits the
fixed, hand-maintained table of native-type to target-primitive aliases
(spec section 4.3).  We model a representative fixed table. -/
def gen_types (api : String) : String :=
  let _ := api
  "pub type GLenum = super::__gl_imports::raw::c_uint;\npub type GLboolean = super::__gl_imports::raw::c_uchar;\npub type GLint = super::__gl_imports::raw::c_int;\npub type GLvoid = super::__gl_imports::raw::c_void;\n"


/-- The chunks of `common::write_type_aliases`: opening `types` module,
the alias table, closing brace. -/
def typeAliasesChunks (r : Registry) : List String :=
  ["\n pub mod types \x7b\n #![allow(non_camel_case_types, non_snake_case, dead_code, missing_copy_implementations)]\n\n",
   gen_types r.api,
   "\x7d\n"]


/-- Modelled from the spec: `generators::gen_enum_item` (invoked by
`common::write_enums`, not under the provided sources) emits one
constant definition per enum entry, scoped behind the type-alias
namespace (spec section 4.3). -/
def gen_enum_item_text (e : GlEnum) : String :=
  "pub const " ++ e.ident ++ ": types::" ++ e.ty ++ " = " ++ e.value ++
    ";\n"


/-- The chunks of `common::write_enums`: one per enum entry. -/
def enumsChunks (r : Registry) : List String :=
  r.enums.map gen_enum_item_text


/-- The text of `common::write_panicking_fns`: the single
`missing_fn_panic` stub, panicking with the api name in its message. -/
def write_panicking_fns_text (r : Registry) : String :=
  "#[inline(never)]\n fn missing_fn_panic() -> ! \x7b\n panic!(\"" ++
    r.api ++ " function was not loaded\")\n \x7d\n"


/-! ### Static strategy (static_gen.rs) -/

/-- One extern declaration of the Static strategy's `write_fns`. -/
def staticFnDeclText (r : Registry) (cmd : Cmd) : String :=
  "#[link_name=\"" ++ gen_symbol_name r.api cmd.proto.ident ++
    "\"]\n pub fn " ++ cmd.proto.ident ++ "(" ++ staticParams cmd ++ ")" ++
    staticReturnClause cmd ++ ";\n"


/-- The chunks of the Static strategy's `write_fns`: extern block
opening, one declaration per command, closing brace. -/
def staticFnsChunks (r : Registry) : List String :=
  ["\n #[allow(non_snake_case, unused_variables, dead_code)]\n extern \"system\" \x7b\n"]
    ++ r.cmds.map (staticFnDeclText r) ++ ["\x7d\n"]


/-- The chunk sequence of `StaticGenerator::write`: header, type
aliases, enums, extern declarations — and nothing else. -/
def staticGeneratorChunks (r : Registry) : List String :=
  [write_header_text false] ++ typeAliasesChunks r ++ enumsChunks r ++
    staticFnsChunks r


/-- The full output text of the Static strategy. -/
def staticGeneratorText (r : Registry) : String :=
  String.join (staticGeneratorChunks r)


/-! ### Static-Struct strategy (static_struct_gen.rs) -/

/-- The opening chunk of the Static-Struct `write_impl`: the
`load_with` stub whose body is just the unit struct constructor. -/
def staticStructImplText (r : Registry) : String :=
  "impl " ++ gen_struct_name r.api ++
    " \x7b\n /// Stub function.\n #[allow(dead_code)]\n pub fn load_with<F>(mut _loadfn: F) -> " ++
    gen_struct_name r.api ++
    " where F: FnMut(&\x27static str) -> *const __gl_imports::raw::c_void \x7b\n " ++
    gen_struct_name r.api ++ "\n \x7d\n"


/-- Runtime semantics of the Static-Struct `load_with` stub: the body
is just the unit struct constructor, so the probe function is ignored
and no probing happens (the probe state is untouched). -/
def staticStructLoadWith {σ : Type} (loadfn : Loadfn σ) (s : σ) :
    Unit × σ :=
  let _ := loadfn
  ((), s)


/-! ### Global strategy (global_gen.rs) -/

/-- The text of `write_metaloadfn`. -/
def write_metaloadfn_text : String :=
  "\n #[inline(never)]\n fn metaloadfn(loadfn: &mut dyn FnMut(&\x27static str) -> *const __gl_imports::raw::c_void,\n symbol: &\x27static str,\n fallbacks: &[&\x27static str]) -> *const __gl_imports::raw::c_void \x7b\n let mut ptr = loadfn(symbol);\n if ptr.is_null() \x7b\n for &sym in fallbacks \x7b\n ptr = loadfn(sym);\n if !ptr.is_null() \x7b break; \x7d\n \x7d\n \x7d\n ptr\n \x7d\n\n"


/-- One free-function declaration of the Global `write_fns`: the
transmute call through `storage::{name}.f`, with an unconditional
`-> {return_suffix}` clause. -/
def globalFnDeclText (cmd : Cmd) : String :=
  "#[allow(non_snake_case, unused_variables, dead_code)] #[inline]\n pub unsafe fn " ++
    cmd.proto.ident ++ "(" ++ globalParams cmd ++ ") " ++
    globalReturnClause cmd ++
    " \x7b __gl_imports::mem::transmute::<_, extern \"system\" fn(" ++
    globalTypedParams cmd ++ ") " ++ globalReturnClause cmd ++ ">(storage::" ++
    cmd.proto.ident ++ ".f)(" ++ globalIdents cmd ++ ") \x7d\n"


/-- The chunks of the Global `write_fns`: per command, an optional
fallback doc line followed by the declaration. -/
def globalFnsChunks (r : Registry) : List String :=
  r.cmds.flatMap (fun cmd =>
    (match aliasesGet r cmd.proto.ident with
     | some v => ["/// Fallbacks: " ++ String.intercalate ", " v ++ "\n"]
     | none => []) ++ [globalFnDeclText cmd])


/-- The text of `common::write_fnptr_struct_def` in its global
variant. -/
def write_fnptr_struct_def_global_text : String :=
  "\n #[allow(missing_copy_implementations)]\n pub struct FnPtr \x7b\n f: *const __gl_imports::raw::c_void,\n is_loaded: bool,\n \x7d\n\n impl FnPtr \x7b\n pub fn new(ptr: *const __gl_imports::raw::c_void) -> FnPtr \x7b\n if ptr.is_null() \x7b\n FnPtr \x7b f: missing_fn_panic as *const __gl_imports::raw::c_void, is_loaded: false \x7d\n \x7d else \x7b\n FnPtr \x7b f: ptr, is_loaded: true \x7d\n \x7d\n \x7d\n \x7d\n"


/-- One static slot of the Global `write_ptrs`. -/
def globalPtrText (cmd : Cmd) : String :=
  "pub static mut " ++ cmd.proto.ident ++
    ": FnPtr = FnPtr \x7b\n f: super::missing_fn_panic as *const raw::c_void,\n is_loaded: false\n \x7d;\n"


/-- The chunks of the Global `write_ptrs`: the `storage` module
opening, one static slot per command, closing brace. -/
def globalPtrsChunks (r : Registry) : List String :=
  ["mod storage \x7b\n #![allow(non_snake_case)]\n #![allow(non_upper_case_globals)]\n use super::__gl_imports::raw;\n use super::FnPtr;\n"]
    ++ r.cmds.map globalPtrText ++ ["\x7d\n"]


/-- The `{fallbacks}` argument of one `write_fn_mods` module: the
decorated, quoted fallback slice. -/
def globalFallbacksText (r : Registry) (ident : String) : String :=
  match aliasesGet r ident with
  | some v =>
      "&[" ++ String.intercalate ", "
        (v.map (fun name =>
          "\"" ++ gen_symbol_name r.api name ++ "\"")) ++ "]"
  | none => "&[]"


/-- One per-command module of the Global `write_fn_mods`, holding the
command's `is_loaded` and `load_with`. -/
def globalFnModText (r : Registry) (cmd : Cmd) : String :=
  "\n #[allow(non_snake_case)]\n pub mod " ++ cmd.proto.ident ++
    " \x7b\n use super::\x7bstorage, metaloadfn\x7d;\n use super::__gl_imports::raw;\n use super::FnPtr;\n\n #[inline]\n #[allow(dead_code)]\n pub fn is_loaded() -> bool \x7b\n unsafe \x7b storage::" ++
    cmd.proto.ident ++
    ".is_loaded \x7d\n \x7d\n\n #[allow(dead_code)]\n pub fn load_with<F>(mut loadfn: F) where F: FnMut(&\x27static str) -> *const raw::c_void \x7b\n unsafe \x7b\n storage::" ++
    cmd.proto.ident ++ " = FnPtr::new(metaloadfn(&mut loadfn, \"" ++
    gen_symbol_name r.api cmd.proto.ident ++ "\", " ++
    globalFallbacksText r cmd.proto.ident ++ "))\n \x7d\n \x7d\n \x7d\n\n"


/-- The chunks of the Global `write_fn_mods`: one module per command. -/
def globalFnModsChunks (r : Registry) : List String :=
  r.cmds.map (globalFnModText r)


/-- The chunks of the Global `write_load_fn`: opening of the aggregate
`load_with`, one per-command `load_with` invocation, closing text. -/
def globalLoadFnChunks (r : Registry) : List String :=
  ["\n /// Load each OpenGL symbol using a custom load function. This allows for the\n /// use of functions like \x60glfwGetProcAddress\x60 or \x60SDL_GL_GetProcAddress\x60.\n /// ~~~ignore\n /// gl::load_with(|s| glfw.get_proc_address(s));\n /// ~~~\n #[allow(dead_code)]\n pub fn load_with<F>(mut loadfn: F) where F: FnMut(&\x27static str) -> *const __gl_imports::raw::c_void \x7b\n #[inline(never)]\n fn inner(loadfn: &mut dyn FnMut(&\x27static str) -> *const __gl_imports::raw::c_void) \x7b\n"]
    ++ r.cmds.map (fun c => c.proto.ident ++ "::load_with(&mut *loadfn);\n")
    ++ ["\n \x7d\n\n inner(&mut loadfn)\n \x7d\n\n"]


/-! ## The fallible output sink (spec section 7: generation-time errors)

An `io::Write` sink that can fail (e.g. disk full) is modelled by a
capacity-bounded text buffer.  Each `writeln!` of the source is one
atomic write; a failed write returns the I/O error together with the
sink as it stood, exactly as Rust's `?` hands the error to the caller
while the sink retains what was already written. -/

/-- The single generation-time error category: a failed sink write. -/
inductive IOErr where
  | writeFailed : IOErr
deriving DecidableEq, Repr


/-- A writable output sink: accumulated text plus an optional capacity
(number of characters it can hold before writes start failing). -/
structure Sink where
  out : String
  cap : Option Nat
deriving DecidableEq, Repr


/-- One atomic write to the sink: append the chunk, or fail when the
capacity would be exceeded, leaving the sink unchanged. -/
def writeS (sink : Sink) (chunk : String) : Except (IOErr × Sink) Sink :=
  match sink.cap with
  | none => Except.ok ⟨sink.out ++ chunk, none⟩
  | some cap =>
      if sink.out.length + chunk.length ≤ cap then
        Except.ok ⟨sink.out ++ chunk, some cap⟩
      else Except.error (IOErr.writeFailed, sink)


/-- Run an emission helper, i.e. write its chunks in order; the first
failing write aborts the helper and surfaces the error to the caller
(the embedding of `writeln!(..)?`). -/
def emitChunks : List String → Sink → Except (IOErr × Sink) Sink
  | [], sink => Except.ok sink
  | c :: rest, sink =>
      match writeS sink c with
      | Except.ok s' => emitChunks rest s'
      | Except.error e => Except.error e


/-- Embedding of `GlobalGenerator::write` (global_gen.rs lines 21-38):
the shared helpers and strategy steps run in the source's order, each
behind a `?`, so the first failing step aborts the whole generation. -/
def globalGeneratorWrite (r : Registry) (sink : Sink) :
    Except (IOErr × Sink) Sink := do
  let s ← emitChunks [write_header_text false] sink
  let s ← emitChunks [write_metaloadfn_text] s
  let s ← emitChunks (typeAliasesChunks r) s
  let s ← emitChunks (enumsChunks r) s
  let s ← emitChunks (globalFnsChunks r) s
  let s ← emitChunks [write_fnptr_struct_def_global_text] s
  let s ← emitChunks (globalPtrsChunks r) s
  let s ← emitChunks (globalFnModsChunks r) s
  let s ← emitChunks [write_panicking_fns_text r] s
  let s ← emitChunks (globalLoadFnChunks r) s
  pure s


/-- The chunk sequence of the whole Global generation pass. -/
def globalGeneratorChunks (r : Registry) : List String :=
  [write_header_text false] ++ [write_metaloadfn_text] ++
    typeAliasesChunks r ++ enumsChunks r ++ globalFnsChunks r ++
    [write_fnptr_struct_def_global_text] ++ globalPtrsChunks r ++
    globalFnModsChunks r ++ [write_panicking_fns_text r] ++
    globalLoadFnChunks r


/-! ## Concrete sample registries used by witnesses -/

/-- A void command with no parameters and no fallbacks. -/
def demoFoo : Cmd := ⟨⟨"Foo", "()"⟩, []⟩


/-- A value-returning command with one parameter and one fallback. -/
def demoBar : Cmd := ⟨⟨"Bar", "GLint"⟩, [⟨"x", "GLint"⟩]⟩


/-- A small registry: two commands, one enum, one fallback entry. -/
def demoRegistry : Registry :=
  ⟨"gl", [⟨"TRUE", "1", "GLenum"⟩], [demoFoo, demoBar],
    [("Bar", ["BarEXT"])]⟩


/-- A callback-taking void command, as `glDebugMessageCallback`. -/
def demoDbgCmd : Cmd :=
  ⟨⟨"DebugMessageCallback", "()"⟩,
    [⟨"callback", "GLDEBUGPROC"⟩, ⟨"userParam", "*const GLvoid"⟩]⟩


/-- The error-query command. -/
def demoGetError : Cmd := ⟨⟨"GetError", "GLenum"⟩, []⟩


/-- A registry containing a `GetError` command. -/
def demoDebugRegistry : Registry :=
  ⟨"gl", [], [demoDbgCmd, demoGetError], []⟩


/-- A registry with the single command `Baz` and no fallbacks. -/
def bazRegistry : Registry := ⟨"gl", [], [⟨⟨"Baz", "()"⟩, []⟩], []⟩

/-! ## Theorems -/


theorem probeLoop_logging (f : String → Ptr) (names : List String)
    (log : List String) :
    probeLoop (loggingLoadfn f) names log =
      (firstHit f names, log ++ probeSeq f names) := by
  induction names generalizing log with
  | nil => simp [probeLoop, firstHit, probeSeq]
  | cons n rest ih =>
      simp only [probeLoop, loggingLoadfn, firstHit, probeSeq]
      by_cases h : (f n).isNull
      · simp [h, ih]
      · simp [h]


theorem metaloadfn_logging (f : String → Ptr) (symbol : String)
    (fallbacks : List String) (log : List String) :
    metaloadfn (loggingLoadfn f) symbol fallbacks log =
      (if (f symbol).isNull then firstHit f fallbacks else f symbol,
       log ++ symbol ::
         (if (f symbol).isNull then probeSeq f fallbacks else [])) := by
  simp only [metaloadfn, loggingLoadfn]
  by_cases h : (f symbol).isNull
  · simp [h, probeLoop_logging]
  · simp [h]


theorem do_metaloadfn_eq_metaloadfn {σ : Type} (loadfn : Loadfn σ)
    (symbol : String) (symbols : List String) (s : σ) :
    do_metaloadfn loadfn symbol symbols s =
      metaloadfn loadfn symbol symbols s := rfl


theorem loadField_logging (r : Registry) (f : String → Ptr) (c : Cmd)
    (log : List String) :
    loadField r (loggingLoadfn f) c log =
      ((c.proto.ident, resolveCmd r f c), log ++ cmdProbes r f c) := by
  simp only [loadField, do_metaloadfn_eq_metaloadfn, metaloadfn_logging,
    resolveCmd, resolvePtr, cmdProbes]


theorem loadFields_logging (r : Registry) (f : String → Ptr)
    (cmds : List Cmd) (log : List String) :
    loadFields r (loggingLoadfn f) cmds log =
      (cmds.map (fun c => (c.proto.ident, resolveCmd r f c)),
       log ++ cmds.flatMap (cmdProbes r f)) := by
  induction cmds generalizing log with
  | nil => simp [loadFields]
  | cons c rest ih =>
      simp [loadFields, loadField_logging, ih]


theorem load_with_logging (r : Registry) (f : String → Ptr)
    (log : List String) :
    load_with r (loggingLoadfn f) log =
      (⟨r.cmds.map (fun c => (c.proto.ident, resolveCmd r f c))⟩,
       log ++ r.cmds.flatMap (cmdProbes r f)) := by
  simp [load_with, loadFields_logging]


theorem cmdLoadWith_logging (r : Registry) (f : String → Ptr) (c : Cmd)
    (log : List String) :
    cmdLoadWith r (loggingLoadfn f) c log =
      (resolveCmd r f c, log ++ cmdProbes r f c) := by
  simp only [cmdLoadWith, metaloadfn_logging, resolveCmd, resolvePtr,
    cmdProbes]


theorem globalLoadWith_logging (r : Registry) (f : String → Ptr)
    (cmds : List Cmd) (log : List String) :
    globalLoadWith r (loggingLoadfn f) cmds log =
      (cmds.map (fun c => (c.proto.ident, resolveCmd r f c)),
       log ++ cmds.flatMap (cmdProbes r f)) := by
  induction cmds generalizing log with
  | nil => simp [globalLoadWith]
  | cons c rest ih =>
      simp [globalLoadWith, cmdLoadWith_logging, ih]


/-! ## Order-of-probing facts -/

theorem probeSeq_eq_takeWhile (f : String → Ptr) (names : List String) :
    probeSeq f names =
      names.takeWhile (fun n => (f n).isNull) ++
        (names.dropWhile (fun n => (f n).isNull)).take 1 := by
  induction names with
  | nil => simp [probeSeq]
  | cons n rest ih =>
      by_cases h : (f n).isNull
      · simp [probeSeq, h, List.takeWhile_cons, List.dropWhile_cons, ih]
      · simp [probeSeq, h, List.takeWhile_cons, List.dropWhile_cons]


theorem firstHit_eq_dropWhile (f : String → Ptr) (names : List String) :
    firstHit f names =
      match names.dropWhile (fun n => (f n).isNull) with
      | [] => Ptr.null
      | n :: _ => f n := by
  induction names with
  | nil => simp [firstHit]
  | cons n rest ih =>
      by_cases h : (f n).isNull
      · simp [firstHit, h, List.dropWhile_cons, ih]
      · simp [firstHit, h, List.dropWhile_cons]


theorem probeSeq_subset (f : String → Ptr) (names : List String) :
    ∀ n ∈ probeSeq f names, n ∈ names := by
  induction names with
  | nil => simp [probeSeq]
  | cons m rest ih =>
      intro n hn
      by_cases h : (f m).isNull
      · simp only [probeSeq, h, if_pos, List.mem_cons] at hn
        rcases hn with hn | hn
        · simp [hn]
        · exact List.mem_cons_of_mem _ (ih n hn)
      · simp only [probeSeq, h] at hn
        simp only [if_neg, Bool.false_eq_true, not_false_iff,
          List.mem_singleton] at hn
        simp [hn]


theorem firstHit_of_all_null (f : String → Ptr) (names : List String)
    (h : ∀ n, (f n).isNull) : firstHit f names = Ptr.null := by
  induction names with
  | nil => rfl
  | cons n rest ih => simp [firstHit, h n, ih]


theorem emitChunks_append (a b : List String) (sink : Sink) :
    emitChunks (a ++ b) sink =
      match emitChunks a sink with
      | Except.ok s' => emitChunks b s'
      | Except.error e => Except.error e := by
  induction a generalizing sink with
  | nil => simp [emitChunks]
  | cons c rest ih =>
      simp only [List.cons_append, emitChunks]
      cases writeS sink c with
      | ok s' => simp [ih]
      | error e => simp


theorem globalGeneratorWrite_eq_chunks (r : Registry) (sink : Sink) :
    globalGeneratorWrite r sink =
      emitChunks (globalGeneratorChunks r) sink := by
  simp only [globalGeneratorChunks, emitChunks_append,
    globalGeneratorWrite, bind, Except.bind]
  cases h1 : emitChunks [write_header_text false] sink <;> simp
  cases h2 : emitChunks [write_metaloadfn_text] _ <;> simp
  cases h3 : emitChunks (typeAliasesChunks r) _ <;> simp
  cases h4 : emitChunks (enumsChunks r) _ <;> simp
  cases h5 : emitChunks (globalFnsChunks r) _ <;> simp
  cases h6 : emitChunks [write_fnptr_struct_def_global_text] _ <;> simp
  cases h7 : emitChunks (globalPtrsChunks r) _ <;> simp
  cases h8 : emitChunks (globalFnModsChunks r) _ <;> simp
  cases h9 : emitChunks [write_panicking_fns_text r] _ <;> simp
  cases h10 : emitChunks (globalLoadFnChunks r) _ <;> simp [pure, Except.pure]


theorem strJoin_cons (c : String) (rest : List String) :
    String.join (c :: rest) = c ++ String.join rest := by
  simp only [String.join_eq, List.map_cons, List.flatten_cons]
  rfl


theorem writeS_ok (sink : Sink) (c : String) (s1 : Sink)
    (hw : writeS sink c = Except.ok s1) :
    s1.out = sink.out ++ c ∧ s1.cap = sink.cap := by
  simp only [writeS] at hw
  cases hc : sink.cap with
  | none => simp [hc] at hw; simp [← hw, hc]
  | some cap =>
      simp only [hc] at hw
      by_cases hle : sink.out.length + c.length ≤ cap
      · simp [hle] at hw; simp [← hw, hc]
      · simp [hle] at hw


theorem writeS_error (sink : Sink) (c : String) (e : IOErr) (s' : Sink)
    (hw : writeS sink c = Except.error (e, s')) :
    e = IOErr.writeFailed ∧ s' = sink := by
  simp only [writeS] at hw
  cases hc : sink.cap with
  | none => simp [hc] at hw
  | some cap =>
      simp only [hc] at hw
      by_cases hle : sink.out.length + c.length ≤ cap
      · simp [hle] at hw
      · rw [if_neg hle] at hw
        cases hw
        exact ⟨rfl, rfl⟩


theorem emitChunks_ok (chunks : List String) (sink s' : Sink)
    (h : emitChunks chunks sink = Except.ok s') :
    s'.out = sink.out ++ String.join chunks ∧ s'.cap = sink.cap := by
  induction chunks generalizing sink with
  | nil =>
      simp only [emitChunks, Except.ok.injEq] at h
      simp [← h, String.join]
  | cons c rest ih =>
      simp only [emitChunks] at h
      cases hw : writeS sink c with
      | ok s1 =>
          rw [hw] at h
          obtain ⟨h1, h2⟩ := ih s1 h
          obtain ⟨hs1, hs2⟩ := writeS_ok sink c s1 hw
          refine ⟨?_, by rw [h2, hs2]⟩
          rw [h1, hs1, strJoin_cons, String.append_assoc]
      | error e =>
          rw [hw] at h
          cases h


theorem emitChunks_error (chunks : List String) (sink : Sink)
    (e : IOErr) (s' : Sink)
    (h : emitChunks chunks sink = Except.error (e, s')) :
    e = IOErr.writeFailed ∧
      ∃ pre post, chunks = pre ++ post ∧ post ≠ [] ∧
        s'.out = sink.out ++ String.join pre ∧ s'.cap = sink.cap := by
  induction chunks generalizing sink with
  | nil => cases h
  | cons c rest ih =>
      simp only [emitChunks] at h
      cases hw : writeS sink c with
      | ok s1 =>
          rw [hw] at h
          obtain ⟨he, pre, post, hsplit, hpost, hout, hcap⟩ := ih s1 h
          obtain ⟨hs1, hs2⟩ := writeS_ok sink c s1 hw
          refine ⟨he, c :: pre, post, by simp [hsplit], hpost, ?_,
            by rw [hcap, hs2]⟩
          rw [hout, hs1, strJoin_cons, String.append_assoc]
      | error e0 =>
          rw [hw] at h
          cases h
          obtain ⟨he, hs⟩ := writeS_error sink c e s' hw
          refine ⟨he, [], c :: rest, by simp, by simp, ?_, by rw [hs]⟩
          rw [hs]
          simp [String.join]


/-! ## Small string facts for the return-clause comparison -/

theorem arrowClause_ne_empty (ty : String) : "-> " ++ ty ≠ "" := by
  intro h
  have hl := congrArg String.length h
  simp [String.length_append] at hl
  exact absurd hl.1 (by decide)


theorem voidClause_iff (ty : String) :
    (if ty == "()" then "" else "-> " ++ ty) = "" ↔ ty = "()" := by
  by_cases h : ty = "()"
  · simp [h]
  · simp [h, arrowClause_ne_empty]


theorem Ptr_isNull_null : Ptr.null.isNull = true := rfl


theorem Ptr_isNull_missingFnPanic : Ptr.missingFnPanic.isNull = false := rfl


/-! ## The claims -/

/-- C1: for every command with a registered fallback list, the emitted
resolution code (`metaloadfn` in the Global strategy, `do_metaloadfn`
in the Struct/Debug strategies) probes the canonical symbol name first;
only when that probe is null does it probe the fallbacks in declared
order, stopping at the first non-null address, which becomes the
resolved address.  Stated over a logging probe: the probe trace is the
canonical symbol followed (only on a null answer) by the fallbacks up
to and including the first hit, and the resolved address is the
canonical answer or the first non-null fallback answer. -/
theorem c1_resolution_probes_canonical_first_then_fallbacks_in_order
    (f : String → Ptr) (sym : String) (fbs : List String)
    (log : List String) :
    metaloadfn (loggingLoadfn f) sym fbs log =
      (if (f sym).isNull then
         (match fbs.dropWhile (fun n => (f n).isNull) with
          | [] => Ptr.null
          | n :: _ => f n)
       else f sym,
       log ++ sym ::
         (if (f sym).isNull then
           fbs.takeWhile (fun n => (f n).isNull) ++
             (fbs.dropWhile (fun n => (f n).isNull)).take 1
         else [])) ∧
    do_metaloadfn (loggingLoadfn f) sym fbs log =
      metaloadfn (loggingLoadfn f) sym fbs log := by
  refine ⟨?_, rfl⟩
  rw [metaloadfn_logging, ← probeSeq_eq_takeWhile, ← firstHit_eq_dropWhile]


/-- C2 counterexample: for the void command `Foo`, the Struct strategy
omits the return clause while the Global strategy still emits `-> ()`:
the strategies do not all agree on suppressing the return clause for
the `"()"` sentinel. -/
theorem c2_counterexample_global_never_omits_return_clause :
    structReturnClause demoFoo = "" ∧
    globalReturnClause demoFoo = "-> ()" ∧
    globalReturnClause demoFoo ≠ structReturnClause demoFoo := by
  refine ⟨rfl, rfl, by decide⟩


/-- C2 (amended): the Struct, Debug-Struct and Static strategies omit
the return clause exactly for the `"()"` sentinel; the Global and
Static-Struct strategies always emit an explicit `-> ty` clause, even
`-> ()` (semantically the same return type); and every strategy renders
its declared, typed and call-site parameter sequences with the same
`gen_parameters` helper, so the parameter-type sequences of any two
strategies are identical. -/
theorem c2_amended_return_sentinel_and_signature_agreement (cmd : Cmd) :
    ((structReturnClause cmd = "" ↔ cmd.proto.ty = "()") ∧
     (debugReturnClause cmd = "" ↔ cmd.proto.ty = "()") ∧
     (staticReturnClause cmd = "" ↔ cmd.proto.ty = "()")) ∧
    (globalReturnClause cmd = "-> " ++ cmd.proto.ty ∧
     globalReturnClause cmd ≠ "" ∧
     staticStructReturnClause cmd = globalReturnClause cmd) ∧
    (cmd.proto.ty ≠ "()" →
      structReturnClause cmd = globalReturnClause cmd ∧
      debugReturnClause cmd = globalReturnClause cmd ∧
      staticReturnClause cmd = globalReturnClause cmd) ∧
    (globalParams cmd = structParams cmd ∧
     structParams cmd = debugParams cmd ∧
     debugParams cmd = staticParams cmd ∧
     staticParams cmd = staticStructParams cmd ∧
     globalTypedParams cmd = structTypedParams cmd ∧
     structTypedParams cmd = debugTypedParams cmd ∧
     globalIdents cmd = structIdents cmd ∧
     structIdents cmd = debugIdents cmd ∧
     debugIdents cmd = staticStructIdents cmd) := by
  refine ⟨⟨?_, ?_, ?_⟩, ⟨rfl, arrowClause_ne_empty _, rfl⟩, ?_,
    rfl, rfl, rfl, rfl, rfl, rfl, rfl, rfl, rfl⟩
  · simpa [structReturnClause] using voidClause_iff cmd.proto.ty
  · simpa [debugReturnClause] using voidClause_iff cmd.proto.ty
  · simpa [staticReturnClause] using voidClause_iff cmd.proto.ty
  · intro hty
    simp [structReturnClause, debugReturnClause, staticReturnClause,
      globalReturnClause, hty]


/-- C5: the emitted `load_with` is idempotent and cache-free: two
successive invocations with the same deterministic probe yield the same
aggregate (identical per-command loaded status and addresses), and the
second pass re-probes exactly the same symbol sequence again. -/
theorem c5_load_with_idempotent_and_reprobing (r : Registry)
    (f : String → Ptr) :
    (load_with r (loggingLoadfn f)
        ((load_with r (loggingLoadfn f) []).2)).1 =
      (load_with r (loggingLoadfn f) []).1 ∧
    (load_with r (loggingLoadfn f)
        ((load_with r (loggingLoadfn f) []).2)).2 =
      (load_with r (loggingLoadfn f) []).2 ++
        (load_with r (loggingLoadfn f) []).2 := by
  simp [load_with_logging]


/-- C3: after a load pass whose probe returns a non-null address for
every symbol, `is_loaded` is true for every command; after a load pass
whose probe returns null for every symbol, `is_loaded` is false for
every command and every slot's pointer is bound to the
`missing_fn_panic` stub.  Stated for the Struct strategy's aggregate
and for the Global strategy's storage slots. -/
theorem c3_load_pass_all_loaded_or_all_stubbed (r : Registry)
    (f : String → Ptr) :
    ((∀ n, (f n).isNull = false) →
      ∀ p ∈ ((load_with r (loggingLoadfn f) []).1).fields,
        p.2.is_loaded = true) ∧
    ((∀ n, (f n).isNull = true) →
      ∀ p ∈ ((load_with r (loggingLoadfn f) []).1).fields,
        p.2.is_loaded = false ∧ p.2.f = Ptr.missingFnPanic) ∧
    ((∀ n, (f n).isNull = false) →
      ∀ p ∈ (globalLoadWith r (loggingLoadfn f) r.cmds []).1,
        p.2.is_loaded = true) ∧
    ((∀ n, (f n).isNull = true) →
      ∀ p ∈ (globalLoadWith r (loggingLoadfn f) r.cmds []).1,
        p.2.is_loaded = false ∧ p.2.f = Ptr.missingFnPanic) := by
  have hload : ∀ (h : ∀ n, (f n).isNull = false) (c : Cmd),
      (resolveCmd r f c).is_loaded = true := by
    intro h c
    simp [resolveCmd, resolvePtr, FnPtr.new, h]
  have hstub : ∀ (h : ∀ n, (f n).isNull = true) (c : Cmd),
      (resolveCmd r f c).is_loaded = false ∧
        (resolveCmd r f c).f = Ptr.missingFnPanic := by
    intro h c
    have hfh := firstHit_of_all_null f
      (decoratedFallbacks r c.proto.ident) h
    simp [resolveCmd, resolvePtr, FnPtr.new, h, hfh, Ptr_isNull_null]
  refine ⟨?_, ?_, ?_, ?_⟩
  · intro h p hp
    rw [load_with_logging] at hp
    simp only [List.mem_map] at hp
    obtain ⟨c, _, hc⟩ := hp
    rw [← hc]
    exact hload h c
  · intro h p hp
    rw [load_with_logging] at hp
    simp only [List.mem_map] at hp
    obtain ⟨c, _, hc⟩ := hp
    rw [← hc]
    exact hstub h c
  · intro h p hp
    rw [globalLoadWith_logging] at hp
    simp only [List.mem_map] at hp
    obtain ⟨c, _, hc⟩ := hp
    rw [← hc]
    exact hload h c
  · intro h p hp
    rw [globalLoadWith_logging] at hp
    simp only [List.mem_map] at hp
    obtain ⟨c, _, hc⟩ := hp
    rw [← hc]
    exact hstub h c


/-- Witness for C3 at the sample registry: a probe that always answers
address 1 loads `Foo`'s slot, and the always-null probe leaves it
unloaded and bound to the panicking stub. -/
theorem c3_witness :
    (FnPtr.new (Ptr.addr 1)).is_loaded = true ∧
    (FnPtr.new Ptr.null).is_loaded = false ∧
    (FnPtr.new Ptr.null).f = Ptr.missingFnPanic := by
  refine ⟨?_, ?_⟩
  · exact (c3_load_pass_all_loaded_or_all_stubbed demoRegistry
      (fun _ => Ptr.addr 1)).1 (fun n => rfl)
      ("Foo", FnPtr.new (Ptr.addr 1)) (by decide)
  · exact (c3_load_pass_all_loaded_or_all_stubbed demoRegistry
      (fun _ => Ptr.null)).2.1 (fun n => rfl)
      ("Foo", FnPtr.new Ptr.null) (by decide)


/-- C4 counterexample: in the Global strategy, after a load pass in
which every probe returns null, invoking `Baz` panics with the message
`"gl function was not loaded"` — the message names the api, not the
command `Baz`. -/
theorem c4_counterexample_panic_message_does_not_name_command :
    invokeGlobal bazRegistry
        (globalLoadWith bazRegistry (loggingLoadfn (fun _ => Ptr.null))
          bazRegistry.cmds []).1
        (fun _ _ => 0) "Baz" [] =
      CallResult.panicked "gl function was not loaded" ∧
    strContains "gl function was not loaded" "Baz" = false := by
  exact ⟨by decide, by decide⟩


/-- C4 (amended): invoking a command whose symbol was unresolved by
every probe terminates with a panic rather than silently returning a
default value, but the panic message of `missing_fn_panic` names the
api family (`"{api} function was not loaded"`), not the individual
entry point. -/
theorem c4_amended_unloaded_call_panics_with_api_message (r : Registry)
    (f : String → Ptr) (native : Nat → List Nat → Nat) (name : String)
    (args : List Nat) (hf : ∀ n, (f n).isNull = true)
    (_hmem : name ∈ r.cmds.map (fun c => c.proto.ident)) :
    invokeGlobal r (globalLoadWith r (loggingLoadfn f) r.cmds []).1
        native name args =
      CallResult.panicked (missingFnPanicMsg r.api) := by
  have hstub : ∀ p ∈ (globalLoadWith r (loggingLoadfn f) r.cmds []).1,
      p.2.f = Ptr.missingFnPanic := by
    intro p hp
    rw [globalLoadWith_logging] at hp
    simp only [List.mem_map] at hp
    obtain ⟨c, _, hc⟩ := hp
    have hfh := firstHit_of_all_null f
      (decoratedFallbacks r c.proto.ident) hf
    rw [← hc]
    simp [resolveCmd, resolvePtr, FnPtr.new, hf, hfh, Ptr_isNull_null]
  unfold invokeGlobal storageGet
  cases hfind : ((globalLoadWith r (loggingLoadfn f) r.cmds []).1).find?
      (fun p => p.1 = name) with
  | none => simp [dispatch]
  | some p =>
      have hpmem := List.mem_of_find?_eq_some hfind
      rw [hstub p hpmem]
      simp [dispatch]


/-- Witness for C4 (amended) at the `Baz` registry with the always-null
probe. -/
theorem c4_amended_witness :
    (∀ n, ((fun (_ : String) => Ptr.null) n).isNull = true) ∧
    "Baz" ∈ bazRegistry.cmds.map (fun c => c.proto.ident) ∧
    invokeGlobal bazRegistry
        (globalLoadWith bazRegistry (loggingLoadfn (fun _ => Ptr.null))
          bazRegistry.cmds []).1
        (fun _ _ => 1) "Baz" [2] =
      CallResult.panicked (missingFnPanicMsg bazRegistry.api) := by
  refine ⟨fun n => rfl, by decide, ?_⟩
  exact c4_amended_unloaded_call_panics_with_api_message bazRegistry
    (fun _ => Ptr.null) (fun _ _ => 1) "Baz" [2] (fun n => rfl)
    (by decide)


/-- Membership in a whole load pass's probe trace comes from some
command's probe sequence, which consists of decorated names only. -/
theorem cmdProbes_decorated (r : Registry) (f : String → Ptr) (c : Cmd)
    (n : String) (hn : n ∈ cmdProbes r f c) :
    ∃ raw, n = gen_symbol_name r.api raw ∧
      (raw = c.proto.ident ∨
        ∃ v, aliasesGet r c.proto.ident = some v ∧ raw ∈ v) := by
  simp only [cmdProbes, List.mem_cons] at hn
  rcases hn with hn | hn
  · exact ⟨c.proto.ident, hn, Or.inl rfl⟩
  · by_cases h : (f (gen_symbol_name r.api c.proto.ident)).isNull
    · rw [if_pos h] at hn
      have hmem := probeSeq_subset f _ n hn
      unfold decoratedFallbacks at hmem
      cases hv : aliasesGet r c.proto.ident with
      | none => rw [hv] at hmem; cases hmem
      | some v =>
          rw [hv] at hmem
          simp only [List.mem_map] at hmem
          obtain ⟨raw, hraw, hdec⟩ := hmem
          exact ⟨raw, hdec.symm, Or.inr ⟨v, rfl, hraw⟩⟩
    · rw [if_neg h] at hn
      cases hn


/-- C10: every symbol the probe function is ever invoked with, in both
the Struct and the Global load pass, is the `gen_symbol_name`
decoration of either a command's canonical name or one of its raw
alias-map entries — the probe never sees a raw alias-map entry. -/
theorem c10_probe_only_sees_decorated_names (r : Registry)
    (f : String → Ptr) :
    (∀ n ∈ (load_with r (loggingLoadfn f) []).2,
      ∃ raw c, c ∈ r.cmds ∧ n = gen_symbol_name r.api raw ∧
        (raw = c.proto.ident ∨
          ∃ v, aliasesGet r c.proto.ident = some v ∧ raw ∈ v)) ∧
    (∀ n ∈ (globalLoadWith r (loggingLoadfn f) r.cmds []).2,
      ∃ raw c, c ∈ r.cmds ∧ n = gen_symbol_name r.api raw ∧
        (raw = c.proto.ident ∨
          ∃ v, aliasesGet r c.proto.ident = some v ∧ raw ∈ v)) := by
  constructor
  · intro n hn
    rw [load_with_logging] at hn
    simp only [List.nil_append, List.mem_flatMap] at hn
    obtain ⟨c, hc, hcp⟩ := hn
    obtain ⟨raw, hdec, hsrc⟩ := cmdProbes_decorated r f c n hcp
    exact ⟨raw, c, hc, hdec, hsrc⟩
  · intro n hn
    rw [globalLoadWith_logging] at hn
    simp only [List.nil_append, List.mem_flatMap] at hn
    obtain ⟨c, hc, hcp⟩ := hn
    obtain ⟨raw, hdec, hsrc⟩ := cmdProbes_decorated r f c n hcp
    exact ⟨raw, c, hc, hdec, hsrc⟩


/-- Witness for C10: in the sample registry under the always-null
probe, the probed fallback symbol `"glBarEXT"` is the decoration of the
raw alias entry `"BarEXT"`. -/
theorem c10_witness :
    "glBarEXT" ∈ (load_with demoRegistry
      (loggingLoadfn (fun _ => Ptr.null)) []).2 ∧
    ∃ raw c, c ∈ demoRegistry.cmds ∧
      "glBarEXT" = gen_symbol_name demoRegistry.api raw ∧
      (raw = c.proto.ident ∨
        ∃ v, aliasesGet demoRegistry c.proto.ident = some v ∧
          raw ∈ v) := by
  refine ⟨by decide, ?_⟩
  exact (c10_probe_only_sees_decorated_names demoRegistry
    (fun _ => Ptr.null)).1 "glBarEXT" (by decide)


/-- C6: the Debug-Struct wrapper (1) prints, before the call, a trace
line with the call name and argument values, formatting callback-typed
(`GLDEBUGPROC`) arguments as the literal `"<callback>"`; (2) appends a
post-call `GetError` check only when a `GetError` command exists in the
registry; and (3) never suppresses the underlying call and passes its
return value through unchanged (whenever the appended error query
itself returns). -/
theorem c6_debug_wrapper_trace_check_and_passthrough (r : Registry)
    (g : GlStruct) (native : Nat → List Nat → Nat) (cmd : Cmd)
    (args : List Nat) :
    ((debugWrapperRun r g native cmd args).2.head? =
      some (Event.printed (debugTraceLine cmd args))) ∧
    (∀ p ∈ cmd.params.zip args,
      strContains p.1.ty "GLDEBUGPROC" = true →
        formatArgVal p.1.ty p.2 = "<callback>") ∧
    (hasErrCheck r cmd = true →
      ∃ c ∈ r.cmds, c.proto.ident = "GetError") ∧
    (printErr r cmd ≠ "" → hasErrCheck r cmd = true) ∧
    (Event.called (g.get cmd.proto.ident).f args ∈
      (debugWrapperRun r g native cmd args).2) ∧
    (∀ v, dispatch r.api native (g.get cmd.proto.ident).f args =
        CallResult.ret v →
      (hasErrCheck r cmd = false ∨
        ∃ e, dispatch r.api native (g.get "GetError").f [] =
          CallResult.ret e) →
      (debugWrapperRun r g native cmd args).1 = CallResult.ret v) ∧
    (∀ v e, dispatch r.api native (g.get cmd.proto.ident).f args =
        CallResult.ret v →
      hasErrCheck r cmd = true →
      dispatch r.api native (g.get "GetError").f [] = CallResult.ret e →
      e ≠ 0 →
      Event.printed ("[OpenGL] ^ GL error triggered: " ++ toString e) ∈
        (debugWrapperRun r g native cmd args).2) := by
  refine ⟨?_, ?_, ?_, ?_, ?_, ?_, ?_⟩
  · simp only [debugWrapperRun]
    cases hd : dispatch r.api native (g.get cmd.proto.ident).f args with
    | panicked m => simp
    | ret v =>
        by_cases hec : hasErrCheck r cmd
        · simp only [hec, if_true]
          cases hge : dispatch r.api native (g.get "GetError").f [] with
          | panicked m => simp
          | ret e => simp
        · simp [hec]
  · intro p _ hcb
    simp [formatArgVal, hcb]
  · intro h
    simp only [hasErrCheck, Bool.and_eq_true, List.any_eq_true] at h
    obtain ⟨c, hc, hid⟩ := h.2
    exact ⟨c, hc, by simpa using hid⟩
  · intro h
    by_cases hec : hasErrCheck r cmd
    · exact hec
    · exact absurd (by simp [printErr, hec]) h
  · simp only [debugWrapperRun]
    cases hd : dispatch r.api native (g.get cmd.proto.ident).f args with
    | panicked m => simp
    | ret v =>
        by_cases hec : hasErrCheck r cmd
        · simp only [hec, if_true]
          cases hge : dispatch r.api native (g.get "GetError").f [] with
          | panicked m => simp
          | ret e => simp
        · simp [hec]
  · intro v hd hok
    simp only [debugWrapperRun, hd]
    by_cases hec : hasErrCheck r cmd
    · rcases hok with hok | ⟨e, hge⟩
      · rw [hok] at hec
        cases hec
      · simp only [hec, if_true, hge]
    · simp [hec]
  · intro v e hd hec hge he
    simp only [debugWrapperRun, hd, hec, if_true, hge]
    simp [he]


/-- Witness for C6: a two-command registry with `GetError`, a fully
loaded aggregate and a native environment whose `GetError` returns 0:
the callback argument is redacted, the error-query command exists, and
the wrapper passes the underlying return value 5 through. -/
theorem c6_witness :
    formatArgVal "GLDEBUGPROC" 3 = "<callback>" ∧
    (∃ c ∈ demoDebugRegistry.cmds, c.proto.ident = "GetError") ∧
    (debugWrapperRun demoDebugRegistry
        ⟨[("DebugMessageCallback", ⟨Ptr.addr 1, true⟩),
          ("GetError", ⟨Ptr.addr 2, true⟩)]⟩
        (fun a _ => if a == 2 then 0 else 5) demoDbgCmd [3, 4]).1 =
      CallResult.ret 5 := by
  have h := c6_debug_wrapper_trace_check_and_passthrough
    demoDebugRegistry
    ⟨[("DebugMessageCallback", ⟨Ptr.addr 1, true⟩),
      ("GetError", ⟨Ptr.addr 2, true⟩)]⟩
    (fun a _ => if a == 2 then 0 else 5) demoDbgCmd [3, 4]
  refine ⟨h.2.1 ⟨⟨"callback", "GLDEBUGPROC"⟩, 3⟩ (by decide) (by decide),
    h.2.2.1 (by decide),
    h.2.2.2.2.2.1 5 (by decide) (Or.inr ⟨0, by decide⟩)⟩


/-- C9: the post-call error check is omitted for the error-query
command itself: `GetError`'s own wrapper gets an empty `print_err`
fragment even when `GetError` is in the registry, while every other
command's wrapper (with `GetError` present) gets a non-empty fragment
containing the post-call `self.GetError.f` invocation. -/
theorem c9_geterror_wrapper_has_no_self_check (r : Registry)
    (cmd : Cmd) :
    (cmd.proto.ident = "GetError" → printErr r cmd = "") ∧
    (cmd.proto.ident ≠ "GetError" →
      (∃ c ∈ r.cmds, c.proto.ident = "GetError") →
      printErr r cmd ≠ "" ∧
      strContains (printErr r cmd) "self.GetError.f" = true) := by
  constructor
  · intro h
    simp [printErr, hasErrCheck, h]
  · intro h hex
    have hec : hasErrCheck r cmd = true := by
      simp only [hasErrCheck, Bool.and_eq_true, List.any_eq_true]
      obtain ⟨c, hc, hid⟩ := hex
      exact ⟨by simp [h], ⟨c, hc, by simp [hid]⟩⟩
    refine ⟨?_, ?_⟩
    · simp only [printErr, hec, if_true]
      decide
    · simp only [printErr, hec, if_true]
      decide


/-- Witness for C9 at the sample registry: `GetError`'s own fragment is
empty, `DebugMessageCallback`'s is not. -/
theorem c9_witness :
    printErr demoDebugRegistry demoGetError = "" ∧
    printErr demoDebugRegistry demoDbgCmd ≠ "" := by
  refine ⟨(c9_geterror_wrapper_has_no_self_check demoDebugRegistry
    demoGetError).1 rfl, ?_⟩
  exact ((c9_geterror_wrapper_has_no_self_check demoDebugRegistry
    demoDbgCmd).2 (by decide) ⟨demoGetError, by decide, rfl⟩).1


/-- C7 counterexample: the Static strategy's full output for the sample
registry contains no `load_with` at all — that strategy does not emit
the no-op loader the claim ascribes to it. -/
theorem c7_counterexample_static_emits_no_load_with :
    strContains (staticGeneratorText demoRegistry) "load_with" =
      false := by
  decide


/-- C7 (amended): only the Static-Struct strategy emits a `load_with`
stub; that stub ignores the supplied probe function, performs no
probing, and trivially succeeds by returning the unit struct, while the
Static strategy emits no `load_with` at all. -/
theorem c7_amended_only_static_struct_emits_noop_load_with (σ : Type)
    (loadfn loadfn' : Loadfn σ) (s : σ) :
    staticStructLoadWith loadfn s = ((), s) ∧
    staticStructLoadWith loadfn s = staticStructLoadWith loadfn' s ∧
    strContains (staticStructImplText demoRegistry) "load_with" =
      true ∧
    strContains (staticGeneratorText demoRegistry) "load_with" =
      false := by
  exact ⟨rfl, rfl, by decide, by decide⟩


/-- C8: a Generator's write is the in-order emission of its helpers'
chunks; a successful pass writes exactly the full chunk sequence, and a
failing sink write surfaces the I/O error immediately and aborts the
pass — the sink then holds the text of a proper leading sequence of
chunks and nothing of any later helper. -/
theorem c8_generation_aborts_at_first_sink_error (r : Registry)
    (sink : Sink) :
    globalGeneratorWrite r sink =
      emitChunks (globalGeneratorChunks r) sink ∧
    (∀ s', globalGeneratorWrite r sink = Except.ok s' →
      s'.out = sink.out ++ String.join (globalGeneratorChunks r)) ∧
    (∀ e s', globalGeneratorWrite r sink = Except.error (e, s') →
      e = IOErr.writeFailed ∧
      ∃ pre post, globalGeneratorChunks r = pre ++ post ∧ post ≠ [] ∧
        s'.out = sink.out ++ String.join pre) := by
  refine ⟨globalGeneratorWrite_eq_chunks r sink, ?_, ?_⟩
  · intro s' h
    rw [globalGeneratorWrite_eq_chunks] at h
    exact (emitChunks_ok _ _ _ h).1
  · intro e s' h
    rw [globalGeneratorWrite_eq_chunks] at h
    obtain ⟨he, pre, post, hsplit, hpost, hout, _⟩ :=
      emitChunks_error _ _ _ _ h
    exact ⟨he, pre, post, hsplit, hpost, hout⟩


/-- Witness for C8: on a sink with zero capacity the first write fails
and generation stops with no output at all. -/
theorem c8_witness :
    ∃ pre post, globalGeneratorChunks bazRegistry = pre ++ post ∧
      post ≠ [] ∧
      (Sink.mk "" (some 0)).out =
        (Sink.mk "" (some 0)).out ++ String.join pre := by
  exact ((c8_generation_aborts_at_first_sink_error bazRegistry
    ⟨"", some 0⟩).2.2 IOErr.writeFailed ⟨"", some 0⟩ (by rfl)).2

end GlGen
